import Mathlib

/-
Verification of the resumable task tracker and progress/cancellation contract
of the homework-mini repository.

The tracker module itself (`utils/task_tracker.py`) is imported by
`src/main.py`, `src/api/agent_routes.py`, `src/api/server.py` and
`src/web/chat_handler.py`, but the module's own code is not part of the
source tree available here; per the specification (sections 3, 4.2 and 7)
its lifecycle operations are modelled below.  The callers
(`run_update`, the agent routes, the `/status` endpoint, the progress
callback) are embedded directly from their Python source.

Modelling conventions:
- task ids are natural numbers allocated from a counter (the source uses
  opaque unique strings; only freshness and equality of ids matter here);
- timestamps are tracker-state clock ticks (the source uses wall-clock
  `time.time()`); the clock advances on every successful mutation;
- `progress` is a rational number (the source uses a float percentage);
- the opaque JSON `params`/`result` payloads are association lists of
  string keys to a small JSON value type;
- fallible operations return a `Bool × TrackerState` pair instead of
  raising: `false` with an unchanged state models the "fail silently,
  return false" contract of section 7.
-/

namespace HomeworkMini

/-- Task status, section 3 of the spec:
`queued | running | completed | failed | cancelled`. -/
inductive Status
  | queued
  | running
  | completed
  | failed
  | cancelled
  deriving DecidableEq, BEq, Repr

/-- A status is terminal when it is `completed`, `failed` or `cancelled`. -/
def Status.isTerminal : Status → Bool
  | .completed => true
  | .failed => true
  | .cancelled => true
  | _ => false

/-- A status is resumable when it is `queued` or `running` (spec section 3:
only `queued`/`running` tasks are candidates for resumption). -/
def Status.isResumable : Status → Bool
  | .queued => true
  | .running => true
  | _ => false

/-- JSON-compatible scalar values for the opaque `params`/`result` payloads
(spec section 9: a schema-less string-keyed map). -/
inductive JVal
  | jstr (s : String)
  | jnum (n : Int)
  | jbool (b : Bool)
  deriving DecidableEq, BEq, Repr

/-- Opaque string-keyed payload mapping (spec sections 3 and 9). -/
abbrev JMap := List (String × JVal)

/-- Task record, the sole persisted entity (spec section 3). -/
structure Task where
  id : Nat
  type : String
  status : Status
  progress : Rat
  message : Option String
  params : JMap
  result : Option JMap
  created_at : Nat
  updated_at : Nat
  description : String
  deriving DecidableEq, Repr

/-- Tracker state: the in-memory task table (the source keeps a JSON mapping
from id to record; here a list of records carrying their ids), the id
allocation counter, and the logical clock used for timestamps. -/
structure TrackerState where
  tasks : List Task
  nextId : Nat
  clock : Nat
  deriving DecidableEq, Repr

/-- Modelled from the spec: `utils/task_tracker.py` is not under `src/`.
`get_task(id) -> Task | None` (spec section 4.2): lookup by id, `none`
for an unknown id. -/
def get_task (s : TrackerState) (id : Nat) : Option Task :=
  s.tasks.find? (fun t => t.id == id)

/-- Modelled from the spec: `utils/task_tracker.py` is not under `src/`.
`create_task(task_type, params, description) -> id` (spec section 4.2):
allocates a fresh id, inserts a record with `status = queued`,
`progress = 0`, `created_at = updated_at = now`. -/
def create_task (s : TrackerState) (task_type : String) (params : JMap)
    (description : String) : Nat × TrackerState :=
  let t : Task :=
    { id := s.nextId, type := task_type, status := .queued, progress := 0,
      message := none, params := params, result := none,
      created_at := s.clock, updated_at := s.clock, description := description }
  (s.nextId, { tasks := s.tasks ++ [t], nextId := s.nextId + 1, clock := s.clock + 1 })

/-- Update the task table entry-wise: every record whose id matches is
rewritten by `f` (the source mutates the entry of a dict keyed by id). -/
def setTask (tasks : List Task) (id : Nat) (f : Task → Task) : List Task :=
  tasks.map (fun t => if t.id == id then f t else t)

/-- Field-wise partial update of one record, as performed by `update_task`:
only the provided fields change; `updated_at` is set to `now`.  A provided
status change from a terminal state back to `queued`/`running` is rejected
(spec sections 3 and 8: no task re-enters `queued` or `running` from a
terminal state; such a change is rejected while `message`/`result` changes
are still applied). -/
def applyUpdate (t : Task) (status : Option Status) (progress : Option Rat)
    (message : Option String) (result : Option JMap) (now : Nat) : Task :=
  { t with
    status :=
      match status with
      | none => t.status
      | some st =>
        if t.status.isTerminal && st.isResumable then t.status else st,
    progress := match progress with | none => t.progress | some p => p,
    message := match message with | none => t.message | some m => some m,
    result := match result with | none => t.result | some r => some r,
    updated_at := now }

/-- Modelled from the spec: `utils/task_tracker.py` is not under `src/`.
`update_task(id, status=None, progress=None, message=None, result=None)`
(spec sections 4.2, 7 and 8): partial update; only provided fields change;
always bumps `updated_at`; returns `false` leaving the state unchanged when
`id` is unknown; rejects status regressions from a terminal state. -/
def update_task (s : TrackerState) (id : Nat) (status : Option Status)
    (progress : Option Rat) (message : Option String) (result : Option JMap) :
    Bool × TrackerState :=
  match s.tasks.find? (fun t => t.id == id) with
  | none => (false, s)
  | some _ =>
    (true,
     { s with
       tasks := setTask s.tasks id
         (fun t => applyUpdate t status progress message result s.clock),
       clock := s.clock + 1 })

/-- Modelled from the spec: `utils/task_tracker.py` is not under `src/`.
`update_task_progress(id, percent, message=None)` (spec section 4.2):
convenience wrapper setting `progress` and `message` without touching
`status`. -/
def update_task_progress (s : TrackerState) (id : Nat) (percent : Rat)
    (message : Option String) : Bool × TrackerState :=
  update_task s id none (some percent) message none

/-- Modelled from the spec: `utils/task_tracker.py` is not under `src/`.
`complete_task(id, success, result=None)` (spec section 4.2): terminal
transition to `completed` (success) or `failed` (not success); sets
`progress = 100` on success; stores `result`; returns `false` leaving the
state unchanged when `id` is unknown. -/
def complete_task (s : TrackerState) (id : Nat) (success : Bool)
    (result : Option JMap) : Bool × TrackerState :=
  match s.tasks.find? (fun t => t.id == id) with
  | none => (false, s)
  | some _ =>
    (true,
     { s with
       tasks := setTask s.tasks id
         (fun t =>
           { t with
             status := if success then .completed else .failed,
             progress := if success then 100 else t.progress,
             result := result,
             updated_at := s.clock }),
       clock := s.clock + 1 })

/-- Modelled from the spec: `utils/task_tracker.py` is not under `src/`.
`cancel_task(id) -> bool` (spec sections 4.2 and 7): terminal transition to
`cancelled`, valid only while the task is `queued` or `running`; returns
`false` for unknown ids and for already-terminal tasks, leaving the state
unchanged. -/
def cancel_task (s : TrackerState) (id : Nat) : Bool × TrackerState :=
  match s.tasks.find? (fun t => t.id == id) with
  | none => (false, s)
  | some t =>
    if t.status.isResumable then
      (true,
       { s with
         tasks := setTask s.tasks id
           (fun u => { u with status := .cancelled, updated_at := s.clock }),
         clock := s.clock + 1 })
    else (false, s)

/-- Modelled from the spec: `utils/task_tracker.py` is not under `src/`.
`list_resumable_tasks() -> [Task]` (spec section 4.2): tasks with
`status in \x7bqueued, running\x7d`. -/
def list_resumable_tasks (s : TrackerState) : List Task :=
  s.tasks.filter (fun t => t.status.isResumable)

/-- One tracker operation, for reasoning about arbitrary operation
sequences (spec section 8: the terminal-status invariant is over every
sequence of lifecycle calls). -/
inductive Op
  | create (task_type : String) (params : JMap) (description : String)
  | update (id : Nat) (status : Option Status) (progress : Option Rat)
      (message : Option String) (result : Option JMap)
  | updateProgress (id : Nat) (percent : Rat) (message : Option String)
  | complete (id : Nat) (success : Bool) (result : Option JMap)
  | cancel (id : Nat)
  deriving DecidableEq, Repr

/-- Effect of one tracker operation on the state (return values dropped). -/
def applyOp (op : Op) (s : TrackerState) : TrackerState :=
  match op with
  | .create ty p d => (create_task s ty p d).2
  | .update id st pr msg res => (update_task s id st pr msg res).2
  | .updateProgress id pc msg => (update_task_progress s id pc msg).2
  | .complete id success res => (complete_task s id success res).2
  | .cancel id => (cancel_task s id).2

/-- Effect of a sequence of tracker operations, first operation first. -/
def applyOps (ops : List Op) (s : TrackerState) : TrackerState :=
  ops.foldl (fun st op => applyOp op st) s

/-- Embeds the `progress_callback` closure of `run_update`
(src/main.py lines 91-106): when the cancellation check fires it only logs
and returns; otherwise it logs and, when a task id is known, calls
`update_task_progress(task_id, percent)` (the message argument is used only
in the log line, not forwarded to the tracker). -/
def progress_callback (task_id : Option Nat) (cancelled : Bool)
    (percent : Rat) (message : Option String) (s : TrackerState) :
    TrackerState :=
  if cancelled then s
  else
    match task_id with
    | some id => (update_task_progress s id percent none).2
    | none => s

/-- Command-line arguments consumed by `run_update`
(src/main.py lines 295-299): `--url`, `--dataset-name`, `--recursive`,
`--task-id`. -/
structure UpdateArgs where
  url : Option String
  dataset_name : String
  recursive : Bool
  task_id : Option Nat
  deriving DecidableEq, Repr

/-- Outcome of the external `create_dataset_from_url` operation invoked by
`run_update`: a result dict with `success` true, a result dict with
`success` false and a message, or a raised exception with a message.  The
operation itself (huggingface/dataset_creator.py) is outside the tracker
core; `run_update` only branches on this outcome. -/
inductive OpOutcome
  | opSuccess
  | opFailure (msg : String)
  | opRaised (msg : String)
  deriving DecidableEq, Repr

/-- Embeds `run_update` (src/main.py lines 26-146).  Environment inputs are
explicit: `hasToken` is whether HuggingFace credentials resolve; `events`
is the sequence of progress-callback invocations made by the operation,
each tagged with whether the global cancellation event was set at that
invocation; `cancelledAfter` is the `check_cancelled()` result observed
after the operation returns (line 120); `outcome` is the operation's
result.  Returns the exit code, the task id in scope at return, and the
final tracker state.  The branch structure follows the source: missing
token returns 1 (line 65); missing url returns 1 (line 140); otherwise a
task is created when none was supplied (line 84), the operation runs with
the progress callback, and then either the exception handler completes the
task as failed with an error result (line 145), or observed cancellation
cancels the task (line 123), or the result's success flag decides between
`complete_task(success=True)` (line 129) and
`complete_task(success=False, result=\x7b"error": ...\x7d)` (line 134). -/
def run_update (args : UpdateArgs) (hasToken : Bool)
    (events : List (Bool × Rat × Option String)) (cancelledAfter : Bool)
    (outcome : OpOutcome) (s : TrackerState) :
    Int × Option Nat × TrackerState :=
  let task_id := args.task_id
  if !hasToken then (1, task_id, s)
  else
    match args.url with
    | none => (1, task_id, s)
    | some u =>
      let idState : Option Nat × TrackerState :=
        match task_id with
        | some id => (some id, s)
        | none =>
          let r := create_task s "url_update"
            [("url", .jstr u), ("dataset_name", .jstr args.dataset_name),
             ("recursive", .jbool args.recursive)]
            ("Updating dataset from URL " ++ u)
          (some r.1, r.2)
      let task_id := idState.1
      let s1 := events.foldl
        (fun st e => progress_callback task_id e.1 e.2.1 e.2.2 st) idState.2
      match outcome with
      | .opRaised msg =>
        let s2 :=
          match task_id with
          | some id => (complete_task s1 id false (some [("error", .jstr msg)])).2
          | none => s1
        (1, task_id, s2)
      | .opSuccess =>
        if cancelledAfter then
          let s2 :=
            match task_id with
            | some id => (cancel_task s1 id).2
            | none => s1
          (1, task_id, s2)
        else
          let s2 :=
            match task_id with
            | some id => (complete_task s1 id true none).2
            | none => s1
          (0, task_id, s2)
      | .opFailure msg =>
        if cancelledAfter then
          let s2 :=
            match task_id with
            | some id => (cancel_task s1 id).2
            | none => s1
          (1, task_id, s2)
        else
          let s2 :=
            match task_id with
            | some id => (complete_task s1 id false (some [("error", .jstr msg)])).2
            | none => s1
          (1, task_id, s2)

/-- Task types accepted by the agent task-creation endpoint
(src/api/agent_routes.py line 135). -/
def valid_task_types : List String := ["web", "github", "knowledge_graph", "custom"]

/-- Observable result of the agent task-creation endpoint: an HTTP error
status with a detail prefix, or the response payload's status string
together with the tracker state after the task is registered. -/
inductive AgentCreateResult
  | httpError (code : Nat)
  | ok (status : String) (s : TrackerState)
  deriving DecidableEq, Repr

/-- Embeds `create_agent_task` (src/api/agent_routes.py lines 112-171):
the request's `task_type` is validated against `valid_task_types`; an
invalid type raises HTTPException 400 before any task is registered; a
valid type registers a `queued` task for a fresh id and the endpoint
responds with status `queued`.  The tracker registration (the source's
`add_task` with `status="queued"`) is modelled as inserting a fresh queued
record via `create_task`. -/
def create_agent_task (s : TrackerState) (task_type : String)
    (message : String) : AgentCreateResult :=
  if task_type ∈ valid_task_types then
    let r := create_task s task_type [("message", .jstr message)]
      "Agent task"
    .ok "queued" r.2
  else .httpError 400

/-- Embeds the task-counter computation of the `/status` endpoint
(src/api/server.py lines 267-283): `all_tasks` is the single
`list_resumable_tasks()` result; `active_tasks` counts its elements whose
status is not `completed`, `failed` or `cancelled`; `total_tasks` is its
length.  Returned as `(active_tasks, total_tasks)`. -/
def status_endpoint_counts (s : TrackerState) : Nat × Nat :=
  let all_tasks := list_resumable_tasks s
  let active_tasks :=
    (all_tasks.filter
      (fun t => !(t.status == Status.completed || t.status == Status.failed
                  || t.status == Status.cancelled))).length
  (active_tasks, all_tasks.length)

/-! Helper lemmas about the task-table operations. -/

theorem find?_setTask (l : List Task) (id j : Nat) (f : Task → Task)
    (hf : ∀ t, (f t).id = t.id) :
    (setTask l id f).find? (fun t => t.id == j)
      = Option.map (fun t => if t.id == id then f t else t)
          (l.find? (fun t => t.id == j)) := by
  induction l with
  | nil => rfl
  | cons a l ih =>
    have hga : ((if (a.id == id) = true then f a else a).id) = a.id := by
      by_cases ha : (a.id == id) = true <;> simp [ha, hf]
    show List.find? (fun t => t.id == j)
        ((if (a.id == id) = true then f a else a) :: setTask l id f) = _
    cases hj : (a.id == j) with
    | true =>
      have h1 : List.find? (fun t => t.id == j)
          ((if (a.id == id) = true then f a else a) :: setTask l id f)
          = some (if (a.id == id) = true then f a else a) :=
        List.find?_cons_of_pos _ (by rw [hga]; exact hj)
      have h2 : List.find? (fun t => t.id == j) (a :: l) = some a :=
        List.find?_cons_of_pos _ hj
      rw [h1, h2]
      rfl
    | false =>
      have h1 : List.find? (fun t => t.id == j)
          ((if (a.id == id) = true then f a else a) :: setTask l id f)
          = List.find? (fun t => t.id == j) (setTask l id f) :=
        List.find?_cons_of_neg _ (by rw [hga]; simp [hj])
      have h2 : List.find? (fun t => t.id == j) (a :: l)
          = List.find? (fun t => t.id == j) l :=
        List.find?_cons_of_neg _ (by simp [hj])
      rw [h1, h2]
      exact ih

theorem find?_some_id {l : List Task} {id : Nat} {t : Task}
    (hfind : l.find? (fun u => u.id == id) = some t) : t.id = id := by
  have h := List.find?_some hfind
  simpa using h

theorem get_task_update_task_found (s : TrackerState) (id : Nat) (t : Task)
    (hget : get_task s id = some t) (st : Option Status) (pr : Option Rat)
    (msg : Option String) (res : Option JMap) :
    (update_task s id st pr msg res).1 = true ∧
    get_task (update_task s id st pr msg res).2 id
      = some (applyUpdate t st pr msg res s.clock) := by
  have hfind : s.tasks.find? (fun u => u.id == id) = some t := hget
  have hid : t.id = id := find?_some_id hfind
  refine ⟨by simp [update_task, hfind], ?_⟩
  simp only [update_task, hfind, get_task]
  rw [find?_setTask s.tasks id id
    (fun u => applyUpdate u st pr msg res s.clock) (fun u => rfl), hfind]
  simp [hid]

theorem get_task_update_task_other (s : TrackerState) (id j : Nat)
    (hne : j ≠ id) (st : Option Status) (pr : Option Rat)
    (msg : Option String) (res : Option JMap) :
    get_task (update_task s id st pr msg res).2 j = get_task s j := by
  cases hfind : s.tasks.find? (fun u => u.id == id) with
  | none => simp [update_task, hfind]
  | some u =>
    simp only [update_task, hfind, get_task]
    rw [find?_setTask s.tasks id j
      (fun v => applyUpdate v st pr msg res s.clock) (fun v => rfl)]
    cases hfj : s.tasks.find? (fun v => v.id == j) with
    | none => simp
    | some v =>
      have hvj : v.id = j := find?_some_id hfj
      have hvi : ¬ ((v.id == id) = true) := by
        simp only [beq_iff_eq, hvj]
        exact hne
      show some (if (v.id == id) = true
          then applyUpdate v st pr msg res s.clock else v) = some v
      rw [if_neg hvi]

theorem get_task_complete_task_found (s : TrackerState) (id : Nat) (t : Task)
    (hget : get_task s id = some t) (success : Bool) (res : Option JMap) :
    (complete_task s id success res).1 = true ∧
    get_task (complete_task s id success res).2 id
      = some { t with
               status := if success then .completed else .failed,
               progress := if success then 100 else t.progress,
               result := res,
               updated_at := s.clock } := by
  have hfind : s.tasks.find? (fun u => u.id == id) = some t := hget
  have hid : t.id = id := find?_some_id hfind
  refine ⟨by simp [complete_task, hfind], ?_⟩
  simp only [complete_task, hfind, get_task]
  rw [find?_setTask s.tasks id id
    (fun u => { u with
                status := if success then .completed else .failed,
                progress := if success then 100 else u.progress,
                result := res,
                updated_at := s.clock }) (fun u => rfl), hfind]
  simp [hid]

theorem get_task_cancel_task_resumable (s : TrackerState) (id : Nat) (t : Task)
    (hget : get_task s id = some t) (hres : t.status.isResumable = true) :
    (cancel_task s id).1 = true ∧
    get_task (cancel_task s id).2 id
      = some { t with status := .cancelled, updated_at := s.clock } := by
  have hfind : s.tasks.find? (fun u => u.id == id) = some t := hget
  have hid : t.id = id := find?_some_id hfind
  refine ⟨by simp [cancel_task, hfind, hres], ?_⟩
  simp only [cancel_task, hfind, hres, if_true, get_task]
  rw [find?_setTask s.tasks id id
    (fun u => { u with status := .cancelled, updated_at := s.clock })
    (fun u => rfl), hfind]
  simp [hid]

theorem cancel_task_not_resumable (s : TrackerState) (id : Nat) (t : Task)
    (hget : get_task s id = some t) (hres : t.status.isResumable = false) :
    cancel_task s id = (false, s) := by
  have hfind : s.tasks.find? (fun u => u.id == id) = some t := hget
  simp [cancel_task, hfind, hres]

theorem applyUpdate_isTerminal (t : Task) (st : Option Status)
    (pr : Option Rat) (msg : Option String) (res : Option JMap) (now : Nat)
    (hterm : t.status.isTerminal = true) :
    (applyUpdate t st pr msg res now).status.isTerminal = true := by
  cases st with
  | none => simpa [applyUpdate] using hterm
  | some x =>
    by_cases hx : x.isResumable = true
    · simp [applyUpdate, hterm, hx]
    · simp only [applyUpdate, hterm, Bool.true_and]
      simp only [Bool.not_eq_true] at hx
      simp only [hx, if_false]
      cases x <;> simp_all [Status.isResumable, Status.isTerminal]

theorem get_task_setTask_other (l : List Task) (id j : Nat) (hne : j ≠ id)
    (f : Task → Task) (hf : ∀ t, (f t).id = t.id) :
    (setTask l id f).find? (fun t => t.id == j)
      = l.find? (fun t => t.id == j) := by
  rw [find?_setTask l id j f hf]
  cases hfj : l.find? (fun v => v.id == j) with
  | none => rfl
  | some v =>
    have hvj : v.id = j := find?_some_id hfj
    have hvi : ¬ ((v.id == id) = true) := by
      simp only [beq_iff_eq, hvj]
      exact hne
    show some (if (v.id == id) = true then f v else v) = some v
    rw [if_neg hvi]

theorem get_task_complete_task_other (s : TrackerState) (id j : Nat)
    (hne : j ≠ id) (success : Bool) (res : Option JMap) :
    get_task (complete_task s id success res).2 j = get_task s j := by
  cases hfind : s.tasks.find? (fun u => u.id == id) with
  | none => simp [complete_task, hfind]
  | some u =>
    simp only [complete_task, hfind, get_task]
    exact get_task_setTask_other s.tasks id j hne _ (fun v => rfl)

theorem get_task_cancel_task_other (s : TrackerState) (id j : Nat)
    (hne : j ≠ id) :
    get_task (cancel_task s id).2 j = get_task s j := by
  cases hfind : s.tasks.find? (fun u => u.id == id) with
  | none => simp [cancel_task, hfind]
  | some u =>
    by_cases hres : u.status.isResumable = true
    · simp only [cancel_task, hfind, hres, if_true, get_task]
      exact get_task_setTask_other s.tasks id j hne _ (fun v => rfl)
    · simp [cancel_task, hfind, hres]

theorem get_task_create_task (s : TrackerState) (id : Nat) (t : Task)
    (hget : get_task s id = some t) (ty : String) (p : JMap) (d : String) :
    get_task (create_task s ty p d).2 id = some t := by
  simp only [create_task, get_task] at hget ⊢
  rw [List.find?_append, hget]
  rfl

theorem isResumable_iff (st : Status) :
    st.isResumable = true ↔ (st = Status.queued ∨ st = Status.running) := by
  cases st <;> simp [Status.isResumable]

theorem isTerminal_iff (st : Status) :
    st.isTerminal = true ↔
      (st = Status.completed ∨ st = Status.failed ∨ st = Status.cancelled) := by
  cases st <;> simp [Status.isTerminal]

theorem isTerminal_eq_not_isResumable (st : Status) :
    st.isTerminal = !st.isResumable := by
  cases st <;> rfl

/-- A task id has reached a terminal state in `s`. -/
def terminalAt (s : TrackerState) (id : Nat) : Prop :=
  ∃ t, get_task s id = some t ∧ t.status.isTerminal = true

theorem terminalAt_create_task (s : TrackerState) (j : Nat)
    (h : terminalAt s j) (ty : String) (p : JMap) (d : String) :
    terminalAt (create_task s ty p d).2 j := by
  obtain ⟨t, hget, hterm⟩ := h
  exact ⟨t, get_task_create_task s j t hget ty p d, hterm⟩

theorem terminalAt_update_task (s : TrackerState) (id j : Nat)
    (h : terminalAt s j) (st : Option Status) (pr : Option Rat)
    (msg : Option String) (res : Option JMap) :
    terminalAt (update_task s id st pr msg res).2 j := by
  obtain ⟨t, hget, hterm⟩ := h
  by_cases hji : j = id
  · subst hji
    exact ⟨_, (get_task_update_task_found s j t hget st pr msg res).2,
      applyUpdate_isTerminal t st pr msg res s.clock hterm⟩
  · refine ⟨t, ?_, hterm⟩
    rw [get_task_update_task_other s id j hji st pr msg res]
    exact hget

theorem terminalAt_complete_task (s : TrackerState) (id j : Nat)
    (h : terminalAt s j) (success : Bool) (res : Option JMap) :
    terminalAt (complete_task s id success res).2 j := by
  obtain ⟨t, hget, hterm⟩ := h
  by_cases hji : j = id
  · subst hji
    refine ⟨_, (get_task_complete_task_found s j t hget success res).2, ?_⟩
    cases success <;> simp [Status.isTerminal]
  · refine ⟨t, ?_, hterm⟩
    rw [get_task_complete_task_other s id j hji success res]
    exact hget

theorem terminalAt_cancel_task (s : TrackerState) (id j : Nat)
    (h : terminalAt s j) : terminalAt (cancel_task s id).2 j := by
  obtain ⟨t, hget, hterm⟩ := h
  by_cases hji : j = id
  · subst hji
    have hres : t.status.isResumable = false := by
      rw [isTerminal_eq_not_isResumable] at hterm
      cases hr : t.status.isResumable <;> simp [hr] at hterm ⊢
    rw [cancel_task_not_resumable s j t hget hres]
    exact ⟨t, hget, hterm⟩
  · refine ⟨t, ?_, hterm⟩
    rw [get_task_cancel_task_other s id j hji]
    exact hget

theorem terminalAt_applyOp (op : Op) (s : TrackerState) (j : Nat)
    (h : terminalAt s j) : terminalAt (applyOp op s) j := by
  cases op with
  | create ty p d => exact terminalAt_create_task s j h ty p d
  | update id st pr msg res => exact terminalAt_update_task s id j h st pr msg res
  | updateProgress id pc msg =>
    exact terminalAt_update_task s id j h none (some pc) msg none
  | complete id success res => exact terminalAt_complete_task s id j h success res
  | cancel id => exact terminalAt_cancel_task s id j h

theorem terminalAt_applyOps (ops : List Op) (s : TrackerState) (j : Nat)
    (h : terminalAt s j) : terminalAt (applyOps ops s) j := by
  induction ops generalizing s with
  | nil => exact h
  | cons op ops ih => exact ih (applyOp op s) (terminalAt_applyOp op s j h)

/-! Concrete fixtures used by the witnesses. -/

/-- Fixture: a completed task. -/
def doneTask : Task :=
  { id := 0, type := "scrape", status := .completed, progress := 100,
    message := none, params := [], result := none, created_at := 0,
    updated_at := 1, description := "done" }

/-- Fixture: a running task. -/
def runningTask : Task :=
  { id := 1, type := "url_update", status := .running, progress := 10,
    message := none, params := [("url", .jstr "https://example.com")],
    result := none, created_at := 0, updated_at := 1,
    description := "update ds1" }

/-- Fixture tracker state with one completed and one running task. -/
def sampleState : TrackerState :=
  { tasks := [doneTask, runningTask], nextId := 2, clock := 2 }

/-- Fixture operation sequence that tries to drag task 0 back to running. -/
def regressOps : List Op := [Op.update 0 (some .running) none none none]

/-! Claim theorems. -/

/-- C1: terminal status never regresses.  For every task id and every
sequence of tracker operations, once the task's status is terminal
(completed, failed or cancelled), no later operation returns its status to
queued or running: update_task rejects such a status change (while still
allowing message/result changes), and no other operation produces a
non-terminal status for that id. -/
theorem terminal_status_never_regresses (s : TrackerState) (id : Nat)
    (ops : List Op) (t' : Task)
    (hterm : ∃ t, get_task s id = some t ∧ t.status.isTerminal = true)
    (hget : get_task (applyOps ops s) id = some t') :
    t'.status ≠ Status.queued ∧ t'.status ≠ Status.running := by
  obtain ⟨w, hw, hwterm⟩ := terminalAt_applyOps ops s id hterm
  rw [hget] at hw
  injection hw with hw
  rw [hw]
  constructor <;> intro hEq <;> rw [hEq] at hwterm <;>
    simp [Status.isTerminal] at hwterm

/-- Witness for C1: a completed task stays non-queued/non-running after an
update_task call that asks for status running. -/
theorem terminal_status_never_regresses_witness :
    ({ doneTask with updated_at := 2 } : Task).status ≠ Status.queued ∧
    ({ doneTask with updated_at := 2 } : Task).status ≠ Status.running :=
  terminal_status_never_regresses sampleState 0 regressOps _
    ⟨doneTask, rfl, rfl⟩ rfl

/-- C2: cancel_task returns true iff the task existed with status queued or
running at call time; it returns false for unknown ids and already-terminal
tasks; in the true case the task's status becomes cancelled; in the false
case the store is unchanged. -/
theorem cancel_task_iff_resumable (s : TrackerState) (id : Nat) :
    ((cancel_task s id).1 = true ↔
      ∃ t, get_task s id = some t ∧
        (t.status = Status.queued ∨ t.status = Status.running)) ∧
    ((cancel_task s id).1 = true →
      ∃ t', get_task (cancel_task s id).2 id = some t' ∧
        t'.status = Status.cancelled) ∧
    ((cancel_task s id).1 = false → (cancel_task s id).2 = s) := by
  cases hfind : s.tasks.find? (fun v => v.id == id) with
  | none =>
    have hnone : get_task s id = none := hfind
    have hcan : cancel_task s id = (false, s) := by simp [cancel_task, hfind]
    rw [hcan]
    refine ⟨?_, ?_, fun _ => rfl⟩
    · simp [hnone]
    · simp
  | some t =>
    have hget : get_task s id = some t := hfind
    by_cases hres : t.status.isResumable = true
    · obtain ⟨h1, h2⟩ := get_task_cancel_task_resumable s id t hget hres
      refine ⟨?_, ?_, ?_⟩
      · exact ⟨fun _ => ⟨t, hget, (isResumable_iff t.status).mp hres⟩,
          fun _ => h1⟩
      · intro
        exact ⟨_, h2, rfl⟩
      · intro hfalse
        rw [h1] at hfalse
        exact absurd hfalse (by simp)
    · have hres' : t.status.isResumable = false := by simpa using hres
      have hcan : cancel_task s id = (false, s) :=
        cancel_task_not_resumable s id t hget hres'
      rw [hcan]
      refine ⟨?_, ?_, fun _ => rfl⟩
      · constructor
        · intro hfalse
          exact absurd hfalse (by simp)
        · rintro ⟨w, hw, hor⟩
          rw [hget] at hw
          injection hw with hw
          rw [hw, (isResumable_iff w.status).mpr hor] at hres'
          exact absurd hres' (by simp)
      · intro hfalse
        exact absurd hfalse (by simp)

/-- Witness for C2: instantiation at a store holding a running task, at its
id. -/
theorem cancel_task_iff_resumable_witness :
    (((cancel_task sampleState 1).1 = true ↔
      ∃ t, get_task sampleState 1 = some t ∧
        (t.status = Status.queued ∨ t.status = Status.running)) ∧
    ((cancel_task sampleState 1).1 = true →
      ∃ t', get_task (cancel_task sampleState 1).2 1 = some t' ∧
        t'.status = Status.cancelled) ∧
    ((cancel_task sampleState 1).1 = false →
      (cancel_task sampleState 1).2 = sampleState)) :=
  cancel_task_iff_resumable sampleState 1

/-- C9: the /status endpoint derives both task counters from a single
list_resumable_tasks() call: total_tasks is the length of the resumable
list, active_tasks counts its elements whose status is not terminal, and so
active_tasks is at most total_tasks, with equality whenever the resumable
list contains no terminal statuses. -/
theorem status_endpoint_counters (s : TrackerState) :
    (status_endpoint_counts s).2 = (list_resumable_tasks s).length ∧
    (status_endpoint_counts s).1 ≤ (status_endpoint_counts s).2 ∧
    ((∀ t ∈ list_resumable_tasks s, t.status.isTerminal = false) →
      (status_endpoint_counts s).1 = (status_endpoint_counts s).2) := by
  refine ⟨rfl, List.length_filter_le _ _, ?_⟩
  intro hall
  have hp : ∀ t ∈ list_resumable_tasks s,
      (!(t.status == Status.completed || t.status == Status.failed
         || t.status == Status.cancelled)) = true := by
    intro t ht
    have hterm := hall t ht
    cases hstat : t.status <;>
      first
        | decide
        | (rw [hstat] at hterm; simp [Status.isTerminal] at hterm)
  show (List.filter
      (fun t => !(t.status == Status.completed || t.status == Status.failed
                  || t.status == Status.cancelled))
      (list_resumable_tasks s)).length
    = (list_resumable_tasks s).length
  rw [List.filter_eq_self.mpr hp]

/-- Witness for C9: instantiation at the sample store. -/
theorem status_endpoint_counters_witness :
    ((status_endpoint_counts sampleState).2
        = (list_resumable_tasks sampleState).length ∧
    (status_endpoint_counts sampleState).1
        ≤ (status_endpoint_counts sampleState).2 ∧
    ((∀ t ∈ list_resumable_tasks sampleState, t.status.isTerminal = false) →
      (status_endpoint_counts sampleState).1
        = (status_endpoint_counts sampleState).2)) :=
  status_endpoint_counters sampleState

/-- C10: in run_update's progress_callback, when the global cancellation
event is observed set at entry, the callback returns after logging without
calling update_task_progress: the tracker state is unchanged. -/
theorem progress_callback_noop_when_cancelled (task_id : Option Nat)
    (percent : Rat) (message : Option String) (s : TrackerState) :
    progress_callback task_id true percent message s = s := rfl

/-- C3: list_resumable_tasks returns exactly the set of tasks whose status
is queued or running: membership holds iff the task is in the store with a
resumable status, and after complete_task drives a task terminal its id is
absent from the next call's result. -/
theorem list_resumable_tasks_correct (s : TrackerState) :
    (∀ t, t ∈ list_resumable_tasks s ↔
      (t ∈ s.tasks ∧ (t.status = Status.queued ∨ t.status = Status.running))) ∧
    (∀ id success res u,
      u ∈ list_resumable_tasks (complete_task s id success res).2 →
        u.id ≠ id) := by
  constructor
  · intro t
    simp only [list_resumable_tasks]
    rw [List.mem_filter, isResumable_iff]
  · intro id success res u hu huid
    cases hfind : s.tasks.find? (fun v => v.id == id) with
    | none =>
      have hcomp : complete_task s id success res = (false, s) := by
        simp [complete_task, hfind]
      rw [hcomp] at hu
      have hmem : u ∈ s.tasks := (List.mem_filter.mp hu).1
      have hnone := List.find?_eq_none.mp hfind u hmem
      simp [huid] at hnone
    | some w =>
      have htasks : (complete_task s id success res).2.tasks
          = setTask s.tasks id (fun v =>
              { v with
                status := if success then Status.completed else Status.failed,
                progress := if success then 100 else v.progress,
                result := res, updated_at := s.clock }) := by
        simp [complete_task, hfind]
      simp only [list_resumable_tasks, htasks, setTask] at hu
      obtain ⟨hmem, hres⟩ := List.mem_filter.mp hu
      obtain ⟨v, hv, hvu⟩ := List.mem_map.mp hmem
      by_cases hvid : (v.id == id) = true
      · rw [if_pos hvid] at hvu
        rw [← hvu] at hres
        cases success <;> simp [Status.isResumable] at hres
      · rw [if_neg hvid] at hvu
        rw [← hvu] at huid
        exact hvid (by simp [huid])

/-- Witness for C3: instantiation at the sample store. -/
theorem list_resumable_tasks_correct_witness :
    ((∀ t, t ∈ list_resumable_tasks sampleState ↔
      (t ∈ sampleState.tasks ∧
        (t.status = Status.queued ∨ t.status = Status.running))) ∧
    (∀ id success res u,
      u ∈ list_resumable_tasks (complete_task sampleState id success res).2 →
        u.id ≠ id)) :=
  list_resumable_tasks_correct sampleState

/-- C4: complete_task performs a terminal transition for every existing
task id: success=true gives status completed, progress 100 and the supplied
result; success=false gives status failed and the supplied result. -/
theorem complete_task_correct (s : TrackerState) (id : Nat) (t : Task)
    (hget : get_task s id = some t) (success : Bool) (res : Option JMap) :
    (complete_task s id success res).1 = true ∧
    ∃ t', get_task (complete_task s id success res).2 id = some t' ∧
      t'.status = (if success then Status.completed else Status.failed) ∧
      (success = true → t'.progress = 100) ∧
      t'.result = res := by
  obtain ⟨h1, h2⟩ := get_task_complete_task_found s id t hget success res
  refine ⟨h1, _, h2, rfl, ?_, rfl⟩
  intro h
  subst h
  rfl

/-- Witness for C4: the spec's scenario — completing the running task with
success and result pages=12 gives status completed, progress 100 and that
result. -/
theorem complete_task_correct_witness :
    ((complete_task sampleState 1 true (some [("pages", JVal.jnum 12)])).1
        = true ∧
    ∃ t', get_task
        (complete_task sampleState 1 true (some [("pages", JVal.jnum 12)])).2 1
        = some t' ∧
      t'.status = (if true then Status.completed else Status.failed) ∧
      (true = true → t'.progress = 100) ∧
      t'.result = some [("pages", JVal.jnum 12)]) :=
  complete_task_correct sampleState 1 runningTask rfl true
    (some [("pages", JVal.jnum 12)])

/-- C5: for an id not present in the store, get_task returns none and
update_task, update_task_progress, cancel_task and complete_task return
false with the store state unchanged; all operations are total functions,
so no exception can be raised. -/
theorem unknown_id_safe (s : TrackerState) (id : Nat)
    (h : get_task s id = none) (st : Option Status) (pr : Option Rat)
    (msg : Option String) (res : Option JMap) (pc : Rat)
    (pmsg : Option String) (success : Bool) (cres : Option JMap) :
    update_task s id st pr msg res = (false, s) ∧
    update_task_progress s id pc pmsg = (false, s) ∧
    cancel_task s id = (false, s) ∧
    complete_task s id success cres = (false, s) := by
  have hfind : s.tasks.find? (fun v => v.id == id) = none := h
  exact ⟨by simp [update_task, hfind],
    by simp [update_task_progress, update_task, hfind],
    by simp [cancel_task, hfind],
    by simp [complete_task, hfind]⟩

/-- Witness for C5: id 99 is absent from the sample store; each operation
returns false and leaves the store unchanged. -/
theorem unknown_id_safe_witness :
    (update_task sampleState 99 (some .running) none none none
        = (false, sampleState) ∧
    update_task_progress sampleState 99 50 none = (false, sampleState) ∧
    cancel_task sampleState 99 = (false, sampleState) ∧
    complete_task sampleState 99 true none = (false, sampleState)) :=
  unknown_id_safe sampleState 99 rfl (some .running) none none none 50 none
    true none

/-- C6: update_task is a frame-preserving partial update: for every
existing task only the fields passed as non-none arguments change, the
id/type/params/created_at/description fields are untouched, updated_at is
bumped to the call-time clock on every call; update_task_progress sets only
progress and message and never modifies status. -/
theorem update_task_frame (s : TrackerState) (id : Nat) (t : Task)
    (hget : get_task s id = some t) (st : Option Status) (pr : Option Rat)
    (msg : Option String) (res : Option JMap) (pc : Rat)
    (pmsg : Option String) :
    ∃ t', get_task (update_task s id st pr msg res).2 id = some t' ∧
      t'.id = t.id ∧ t'.type = t.type ∧ t'.params = t.params ∧
      t'.created_at = t.created_at ∧ t'.description = t.description ∧
      t'.updated_at = s.clock ∧
      (st = none → t'.status = t.status) ∧
      (pr = none → t'.progress = t.progress) ∧
      (msg = none → t'.message = t.message) ∧
      (res = none → t'.result = t.result) ∧
      (∀ p, pr = some p → t'.progress = p) ∧
      (∀ m, msg = some m → t'.message = some m) ∧
      (∀ r, res = some r → t'.result = some r) ∧
      (∃ t'', get_task (update_task_progress s id pc pmsg).2 id = some t'' ∧
        t''.status = t.status ∧ t''.progress = pc ∧
        t''.updated_at = s.clock) := by
  obtain ⟨-, h2⟩ := get_task_update_task_found s id t hget st pr msg res
  obtain ⟨-, h3⟩ :=
    get_task_update_task_found s id t hget none (some pc) pmsg none
  refine ⟨_, h2, rfl, rfl, rfl, rfl, rfl, rfl,
    ?_, ?_, ?_, ?_, ?_, ?_, ?_, ⟨_, h3, rfl, rfl, rfl⟩⟩
  · intro h; subst h; rfl
  · intro h; subst h; rfl
  · intro h; subst h; rfl
  · intro h; subst h; rfl
  · intro p h; subst h; rfl
  · intro m h; subst h; rfl
  · intro r h; subst h; rfl

/-- Witness for C6: updating the running task's progress and message only;
status, identity and creation fields are untouched, updated_at is bumped. -/
theorem update_task_frame_witness :
    (∃ t', get_task (update_task sampleState 1 none (some 40)
        (some "fetching") none).2 1 = some t' ∧
      t'.id = runningTask.id ∧ t'.type = runningTask.type ∧
      t'.params = runningTask.params ∧
      t'.created_at = runningTask.created_at ∧
      t'.description = runningTask.description ∧
      t'.updated_at = sampleState.clock ∧
      ((none : Option Status) = none → t'.status = runningTask.status) ∧
      ((some (40 : Rat)) = none → t'.progress = runningTask.progress) ∧
      ((some "fetching") = none → t'.message = runningTask.message) ∧
      ((none : Option JMap) = none → t'.result = runningTask.result) ∧
      (∀ p, (some (40 : Rat)) = some p → t'.progress = p) ∧
      (∀ m, (some "fetching") = some m → t'.message = some m) ∧
      (∀ r, (none : Option JMap) = some r → t'.result = some r) ∧
      (∃ t'', get_task
          (update_task_progress sampleState 1 40 (some "fetching")).2 1
          = some t'' ∧
        t''.status = runningTask.status ∧ t''.progress = 40 ∧
        t''.updated_at = sampleState.clock)) :=
  update_task_frame sampleState 1 runningTask rfl none (some 40)
    (some "fetching") none 40 (some "fetching")

/-- Counterexample for C7: the agent task-creation endpoint does not accept
an arbitrary task_type — "scrape", a type the spec itself lists, is
rejected with HTTP 400. -/
theorem create_agent_task_rejects_scrape :
    create_agent_task sampleState "scrape" "scrape docs"
      = AgentCreateResult.httpError 400 := rfl

/-- C7 amended: the tracker-level task type is open-ended — create_task
registers a queued task for every task-type string — but the agent
task-creation endpoint validates task_type against the fixed list
valid_task_types = [web, github, knowledge_graph, custom], rejecting every
other string with HTTP 400 before any task is registered, and answering
status "queued" for members of the list. -/
theorem task_type_open_in_tracker_validated_in_endpoint
    (s : TrackerState) (ty msg : String) (p : JMap) (d : String) :
    (∃ t, t ∈ (create_task s ty p d).2.tasks ∧
      t.id = (create_task s ty p d).1 ∧
      t.type = ty ∧ t.status = Status.queued) ∧
    (ty ∉ valid_task_types →
      create_agent_task s ty msg = AgentCreateResult.httpError 400) ∧
    (ty ∈ valid_task_types →
      ∃ s', create_agent_task s ty msg = AgentCreateResult.ok "queued" s') := by
  refine ⟨?_, ?_, ?_⟩
  · exact ⟨{ id := s.nextId, type := ty, status := .queued, progress := 0,
             message := none, params := p, result := none,
             created_at := s.clock, updated_at := s.clock, description := d },
      by simp [create_task], rfl, rfl, rfl⟩
  · intro hmem
    simp [create_agent_task, hmem]
  · intro hmem
    exact ⟨(create_task s ty [("message", .jstr msg)] "Agent task").2,
      by simp [create_agent_task, hmem]⟩

/-- Witness for C7's amended theorem: instantiation at the sample store and
the rejected type "scrape". -/
theorem task_type_open_in_tracker_validated_in_endpoint_witness :
    ((∃ t, t ∈ (create_task sampleState "scrape" [] "d").2.tasks ∧
      t.id = (create_task sampleState "scrape" [] "d").1 ∧
      t.type = "scrape" ∧ t.status = Status.queued) ∧
    ("scrape" ∉ valid_task_types →
      create_agent_task sampleState "scrape" "m"
        = AgentCreateResult.httpError 400) ∧
    ("scrape" ∈ valid_task_types →
      ∃ s', create_agent_task sampleState "scrape" "m"
        = AgentCreateResult.ok "queued" s')) :=
  task_type_open_in_tracker_validated_in_endpoint sampleState "scrape" "m"
    [] "d"

/-! Support lemmas for C8. -/

theorem find?_id_singleton (t : Task) :
    List.find? (fun u => u.id == t.id) [t] = some t :=
  List.find?_cons_of_pos _ (by simp)

theorem get_task_create_self_exists (s : TrackerState) (ty : String)
    (p : JMap) (d : String) :
    ∃ t, get_task (create_task s ty p d).2 (create_task s ty p d).1
      = some t := by
  simp only [create_task, get_task]
  rw [List.find?_append]
  cases h : s.tasks.find? (fun t => t.id == s.nextId) with
  | some w => exact ⟨w, rfl⟩
  | none => exact ⟨_, find?_id_singleton _⟩

theorem exists_get_task_progress_callback (tid : Option Nat) (c : Bool)
    (pc : Rat) (m : Option String) (s : TrackerState) (j : Nat)
    (h : ∃ t, get_task s j = some t) :
    ∃ t', get_task (progress_callback tid c pc m s) j = some t' := by
  obtain ⟨t, hget⟩ := h
  unfold progress_callback
  by_cases hc : c = true
  · rw [if_pos hc]
    exact ⟨t, hget⟩
  · rw [if_neg hc]
    cases tid with
    | none => exact ⟨t, hget⟩
    | some id =>
      by_cases hji : j = id
      · subst hji
        exact ⟨_, (get_task_update_task_found s j t hget none (some pc)
          none none).2⟩
      · refine ⟨t, ?_⟩
        show get_task (update_task s id none (some pc) none none).2 j
          = some t
        rw [get_task_update_task_other s id j hji]
        exact hget

theorem exists_get_task_foldl_events
    (events : List (Bool × Rat × Option String)) (tid : Option Nat)
    (s : TrackerState) (j : Nat) (h : ∃ t, get_task s j = some t) :
    ∃ t', get_task
      (events.foldl (fun st e => progress_callback tid e.1 e.2.1 e.2.2 st) s)
      j = some t' := by
  induction events generalizing s with
  | nil => exact h
  | cons e es ih =>
    exact ih _ (exists_get_task_progress_callback tid e.1 e.2.1 e.2.2 s j h)

theorem complete_task_terminal_after (s : TrackerState) (id : Nat)
    (h : ∃ t, get_task s id = some t) (success : Bool) (res : Option JMap) :
    ∃ t', get_task (complete_task s id success res).2 id = some t' ∧
      t'.status.isTerminal = true := by
  obtain ⟨t, hget⟩ := h
  refine ⟨_, (get_task_complete_task_found s id t hget success res).2, ?_⟩
  cases success <;> simp [Status.isTerminal]

theorem cancel_task_terminal_after (s : TrackerState) (id : Nat)
    (h : ∃ t, get_task s id = some t) :
    ∃ t', get_task (cancel_task s id).2 id = some t' ∧
      t'.status.isTerminal = true := by
  obtain ⟨t, hget⟩ := h
  by_cases hres : t.status.isResumable = true
  · exact ⟨_, (get_task_cancel_task_resumable s id t hget hres).2, rfl⟩
  · have hres' : t.status.isResumable = false := by simpa using hres
    rw [cancel_task_not_resumable s id t hget hres']
    refine ⟨t, hget, ?_⟩
    rw [isTerminal_eq_not_isResumable, hres']
    rfl

/-- C8: whenever run_update runs with HuggingFace credentials, a url, and a
known task id — freshly created, or supplied via --task-id and present in
the store — and the operation was cancelled, failed or raised, run_update
returns exit code 1 and the task record has been driven to a terminal state
before return (cancel_task on observed cancellation, complete_task with
success=false and an error result on failure or exception). -/
theorem run_update_reaches_terminal (args : UpdateArgs) (u : String)
    (events : List (Bool × Rat × Option String)) (cancelledAfter : Bool)
    (outcome : OpOutcome) (s : TrackerState)
    (hurl : args.url = some u)
    (hknown : ∀ id, args.task_id = some id → ∃ t, get_task s id = some t)
    (hbad : ¬(outcome = OpOutcome.opSuccess ∧ cancelledAfter = false)) :
    (run_update args true events cancelledAfter outcome s).1 = 1 ∧
    ∃ id t',
      (run_update args true events cancelledAfter outcome s).2.1 = some id ∧
      get_task (run_update args true events cancelledAfter outcome s).2.2 id
        = some t' ∧
      t'.status.isTerminal = true := by
  obtain ⟨aurl, adn, arec, atid⟩ := args
  have hurl' : aurl = some u := hurl
  subst hurl'
  cases atid with
  | some id =>
    have hex0 : ∃ t, get_task s id = some t := hknown id rfl
    have hex1 := exists_get_task_foldl_events events (some id) s id hex0
    cases outcome with
    | opRaised m =>
      obtain ⟨t', hget, hterm⟩ := complete_task_terminal_after
        (events.foldl
          (fun st e => progress_callback (some id) e.1 e.2.1 e.2.2 st) s)
        id hex1 false (some [("error", .jstr m)])
      exact ⟨rfl, id, t', rfl, hget, hterm⟩
    | opSuccess =>
      cases cancelledAfter with
      | false => exact absurd ⟨rfl, rfl⟩ hbad
      | true =>
        obtain ⟨t', hget, hterm⟩ := cancel_task_terminal_after
          (events.foldl
            (fun st e => progress_callback (some id) e.1 e.2.1 e.2.2 st) s)
          id hex1
        exact ⟨rfl, id, t', rfl, hget, hterm⟩
    | opFailure m =>
      cases cancelledAfter with
      | true =>
        obtain ⟨t', hget, hterm⟩ := cancel_task_terminal_after
          (events.foldl
            (fun st e => progress_callback (some id) e.1 e.2.1 e.2.2 st) s)
          id hex1
        exact ⟨rfl, id, t', rfl, hget, hterm⟩
      | false =>
        obtain ⟨t', hget, hterm⟩ := complete_task_terminal_after
          (events.foldl
            (fun st e => progress_callback (some id) e.1 e.2.1 e.2.2 st) s)
          id hex1 false (some [("error", .jstr m)])
        exact ⟨rfl, id, t', rfl, hget, hterm⟩
  | none =>
    have hex0 := get_task_create_self_exists s "url_update"
      [("url", .jstr u), ("dataset_name", .jstr adn),
       ("recursive", .jbool arec)]
      ("Updating dataset from URL " ++ u)
    have hex1 := exists_get_task_foldl_events events
      (some (create_task s "url_update"
        [("url", .jstr u), ("dataset_name", .jstr adn),
         ("recursive", .jbool arec)]
        ("Updating dataset from URL " ++ u)).1)
      (create_task s "url_update"
        [("url", .jstr u), ("dataset_name", .jstr adn),
         ("recursive", .jbool arec)]
        ("Updating dataset from URL " ++ u)).2
      (create_task s "url_update"
        [("url", .jstr u), ("dataset_name", .jstr adn),
         ("recursive", .jbool arec)]
        ("Updating dataset from URL " ++ u)).1
      hex0
    cases outcome with
    | opRaised m =>
      obtain ⟨t', hget, hterm⟩ := complete_task_terminal_after _ _ hex1 false
        (some [("error", .jstr m)])
      exact ⟨rfl, _, t', rfl, hget, hterm⟩
    | opSuccess =>
      cases cancelledAfter with
      | false => exact absurd ⟨rfl, rfl⟩ hbad
      | true =>
        obtain ⟨t', hget, hterm⟩ := cancel_task_terminal_after _ _ hex1
        exact ⟨rfl, _, t', rfl, hget, hterm⟩
    | opFailure m =>
      cases cancelledAfter with
      | true =>
        obtain ⟨t', hget, hterm⟩ := cancel_task_terminal_after _ _ hex1
        exact ⟨rfl, _, t', rfl, hget, hterm⟩
      | false =>
        obtain ⟨t', hget, hterm⟩ := complete_task_terminal_after _ _ hex1
          false (some [("error", .jstr m)])
        exact ⟨rfl, _, t', rfl, hget, hterm⟩

/-- Witness for C8: fresh task creation from an empty store, an operation
failure outcome after one progress event; the exit code is 1 and the
created task ends failed. -/
theorem run_update_reaches_terminal_witness :
    ((run_update ⟨some "https://example.com", "ds1", false, none⟩ true
        [(false, 10, none)] false (OpOutcome.opFailure "boom")
        ⟨[], 0, 0⟩).1 = 1 ∧
    ∃ id t',
      (run_update ⟨some "https://example.com", "ds1", false, none⟩ true
        [(false, 10, none)] false (OpOutcome.opFailure "boom")
        ⟨[], 0, 0⟩).2.1 = some id ∧
      get_task (run_update ⟨some "https://example.com", "ds1", false, none⟩
        true [(false, 10, none)] false (OpOutcome.opFailure "boom")
        ⟨[], 0, 0⟩).2.2 id = some t' ∧
      t'.status.isTerminal = true) :=
  run_update_reaches_terminal ⟨some "https://example.com", "ds1", false, none⟩
    "https://example.com" [(false, 10, none)] false
    (OpOutcome.opFailure "boom") ⟨[], 0, 0⟩ rfl
    (fun id h => absurd h (by simp))
    (by intro h; exact absurd h.1 (by simp))

end HomeworkMini
